import Mathlib

/-!
Verification of the cache-controller service worker (src/sw.js) of the
PORTFOLIO repository. The worker is embedded shallowly: requests, responses
and the browser cache storage become explicit data, the event handlers become
pure state-passing functions translated line by line from the source, and the
promise outcome delivered to the page becomes an explicit value
(resolve with a response, resolve with undefined, reject, or pass-through).
-/

namespace SW

/-- A parsed URL as the worker sees it: the pieces of `new URL(request.url)`
that src/sw.js reads (protocol, origin) plus the path, which together give
the serialized href used as a cache key. -/
structure Url where
  protocol : String
  origin : String
  path : String
deriving Repr, DecidableEq

/-- The serialization of a URL, used as the cache key of a request. -/
def Url.href (u : Url) : String := u.origin ++ u.path

/-- The fields of a fetch-event request that src/sw.js consults: the method
(line 50), the URL (line 51), the Accept header with absent mapped to the
empty string (line 55), and the destination (line 56). -/
structure Request where
  method : String
  url : Url
  accept : String
  destination : String
deriving Repr, DecidableEq

/-- The fields of a fetch response that src/sw.js consults: HTTP status
(lines 63, 84), the response type ("basic", "cors", "opaque",
"opaqueredirect", "error"; line 84), and an abstract body payload so that
distinct responses are distinguishable. -/
structure Response where
  status : Nat
  rtype : String
  body : String
deriving Repr, DecidableEq

/-- One namespace of the browser cache storage: request URL href to stored
response snapshot. -/
abbrev Cache := List (String × Response)

/-- The browser cache storage: named namespaces in creation order. -/
abbrev CacheStorage := List (String × Cache)

/-- A network error message carried by a rejected fetch promise. -/
abbrev NetErr := String

/-- The network as the worker observes it: fetch either resolves with a
response or rejects with an error. -/
abbrev NetFn := Request → Except NetErr Response

/-- Overwriting put into one cache: the entry for the key is replaced. -/
def Cache.put (c : Cache) (k : String) (r : Response) : Cache :=
  (k, r) :: c.filter (fun kv => kv.1 != k)

/-- caches.match across every namespace in order, as the Cache Storage API
does for a GET request: the first namespace holding the key answers. -/
def cachesMatch (cs : CacheStorage) (k : String) : Option Response :=
  cs.findSome? (fun nc => nc.2.lookup k)

/-- caches.open: returns the storage with the named namespace present,
creating it empty at the end when absent. -/
def cachesOpen (cs : CacheStorage) (name : String) : CacheStorage :=
  if cs.any (fun nc => nc.1 == name) then cs else cs ++ [(name, [])]

/-- The fire-and-forget write of src/sw.js lines 64 to 66 and 89 to 91:
open the named cache and put the response under the request href. -/
def csPut (cs : CacheStorage) (name k : String) (r : Response) : CacheStorage :=
  (cachesOpen cs name).map (fun nc => if nc.1 == name then (nc.1, Cache.put nc.2 k r) else nc)

/-- The first list starts with the second. -/
def listStartsWith : List Char → List Char → Bool
  | _, [] => true
  | [], _ :: _ => false
  | c :: cs, p :: ps => c == p && listStartsWith cs ps

/-- The pattern occurs somewhere in the list, at the head or further in. -/
def listHasSub (pat : List Char) : List Char → Bool
  | [] => listStartsWith [] pat
  | c :: cs => listStartsWith (c :: cs) pat || listHasSub pat cs

/-- True when the pattern occurs inside the string, as
String.prototype.includes at line 56 of src/sw.js. -/
def containsSub (s pat : String) : Bool := listHasSub pat.toList s.toList

/-- Line 56: a request is a document request when its destination is
"document" or its Accept header includes "text/html". -/
def isHtmlReq (req : Request) : Bool :=
  req.destination == "document" || containsSub req.accept "text/html"

/-- The key caches.match resolves the relative string "/index.html" to:
the worker location origin followed by the path (lines 71 and 96). -/
def rootKey (o : String) : String := o ++ "/index.html"

deriving instance DecidableEq for Except

/-- What the fetch handler delivers: passthrough when it returns without
respondWith, otherwise the settled value of the promise given to
respondWith, which resolves with a response, resolves with undefined
(no fallback found), or rejects with an error. -/
inductive Outcome where
  | passthrough
  | respond (r : Except NetErr (Option Response))
deriving Repr, DecidableEq

/-- The observable effect of one run of the fetch handler: the outcome for
the page, the cache storage afterwards, and how many network fetches the
handler itself issued. -/
structure FetchResult where
  outcome : Outcome
  caches : CacheStorage
  netCalls : Nat
deriving Repr, DecidableEq

/-- Lines 58 to 74, the network-first document branch: fetch; on success
cache a copy when same-origin with status 200 (lines 62 to 67) and return
the live response; on rejection fall back to the cached copy of this
request, then to the cached root document (lines 70 to 72). The catch
resolves with whatever caches.match gives, undefined included. -/
def handleDocument (o cn : String) (net : NetFn) (cs : CacheStorage) (req : Request) :
    FetchResult :=
  match net req with
  | .ok resp =>
    if req.url.origin == o && resp.status == 200 then
      { outcome := .respond (.ok (some resp)),
        caches := csPut cs cn req.url.href resp, netCalls := 1 }
    else
      { outcome := .respond (.ok (some resp)), caches := cs, netCalls := 1 }
  | .error _ =>
    match cachesMatch cs req.url.href with
    | some r => { outcome := .respond (.ok (some r)), caches := cs, netCalls := 1 }
    | none =>
      { outcome := .respond (.ok (cachesMatch cs (rootKey o))), caches := cs, netCalls := 1 }

/-- Lines 77 to 97, the cache-first asset branch: on a cache hit return the
cached response with no fetch (lines 80 to 82); on a miss fetch, return
responses that are not status 200 or not of basic type uncached (lines 84
to 86), cache same-origin conforming responses (lines 87 to 92); a fetch
rejection reaches the outer catch, which resolves with the cached root
document or undefined (line 96). The guard on a missing response object at
line 84 is unreachable because fetch only resolves with a response. -/
def handleAsset (o cn : String) (net : NetFn) (cs : CacheStorage) (req : Request) :
    FetchResult :=
  match cachesMatch cs req.url.href with
  | some r => { outcome := .respond (.ok (some r)), caches := cs, netCalls := 0 }
  | none =>
    match net req with
    | .ok resp =>
      if resp.status != 200 || resp.rtype != "basic" then
        { outcome := .respond (.ok (some resp)), caches := cs, netCalls := 1 }
      else if req.url.origin == o then
        { outcome := .respond (.ok (some resp)),
          caches := csPut cs cn req.url.href resp, netCalls := 1 }
      else
        { outcome := .respond (.ok (some resp)), caches := cs, netCalls := 1 }
    | .error _ =>
      { outcome := .respond (.ok (cachesMatch cs (rootKey o))), caches := cs, netCalls := 1 }

/-- Lines 48 to 98, the fetch listener: pass through non-GET requests
(line 50) and non-http(s) schemes (lines 51 to 53), route document requests
network-first and everything else cache-first. `o` is the worker origin
(self.location.origin) and `cn` the current cache name, injected as
configuration. -/
def handleFetch (o cn : String) (net : NetFn) (cs : CacheStorage) (req : Request) :
    FetchResult :=
  if req.method != "GET" then
    { outcome := .passthrough, caches := cs, netCalls := 0 }
  else if !(req.url.protocol == "http:" || req.url.protocol == "https:") then
    { outcome := .passthrough, caches := cs, netCalls := 0 }
  else if isHtmlReq req then handleDocument o cn net cs req
  else handleAsset o cn net cs req

/-- A response is ok in the sense of the Fetch standard (status 200 to 299);
cache.addAll rejects on any response that is not ok. -/
def respOk (r : Response) : Bool := 200 ≤ r.status && r.status ≤ 299

/-- The fetch phase of cache.addAll over absolute URLs: fetch each in order,
collecting key-response pairs; reject as soon as one fetch rejects or one
response is not ok. Nothing is stored unless every fetch conformed. -/
def fetchAll (net : String → Except NetErr Response) :
    List String → Except NetErr (List (String × Response))
  | [] => .ok []
  | u :: us =>
    match net u with
    | .error e => .error e
    | .ok r =>
      if respOk r then
        match fetchAll net us with
        | .error e => .error e
        | .ok rest => .ok ((u, r) :: rest)
      else .error "addAll: a response was not ok"

/-- Lines 16 to 28, the install listener as it changes the cache storage:
open the namespace named by the version, then cache.addAll the manifest
paths (resolved against the worker origin). A failure of the whole addAll
is logged and swallowed by the catch at lines 23 to 25, so install always
completes and the opened, possibly unfilled, namespace stays. -/
def install (o : String) (net : String → Except NetErr Response) (name : String)
    (urls : List String) (cs : CacheStorage) : CacheStorage :=
  let cs1 := cachesOpen cs name
  match fetchAll net (urls.map (fun p => o ++ p)) with
  | .ok entries => entries.foldl (fun acc ur => csPut acc name ur.1 ur.2) cs1
  | .error _ => cs1

/-- Lines 31 to 45, the activate listener: enumerate all namespaces and
delete every one whose name differs from the current version identifier.
caches.delete removes a namespace whole; the others keep their entries. -/
def activate (current : String) (cs : CacheStorage) : CacheStorage :=
  cs.filter (fun nc => nc.1 == current)

/-- The notification options built by the push listener, lines 114 to 122. -/
structure NotificationOptions where
  body : String
  icon : String
  badge : String
  vibrate : List Nat
  dateOfArrival : Nat
deriving Repr, DecidableEq

/-- The worker-visible state the auxiliary handlers can touch: the cache
storage, the console log, the notifications shown (title and options), and
whether skipWaiting has been invoked. -/
structure WorkerState where
  caches : CacheStorage
  log : List String
  notifications : List (String × NotificationOptions)
  skipWaitingCalled : Bool
deriving Repr, DecidableEq

/-- Lines 107 to 110: the background sync routine is a stub that only logs. -/
def doBackgroundSync (st : WorkerState) : WorkerState :=
  { st with log := st.log ++ ["Background sync triggered"] }

/-- Lines 101 to 105, the sync listener: on the tag "backgroundSync" run the
(logging-only) sync routine, otherwise do nothing. -/
def handleSync (st : WorkerState) (tag : String) : WorkerState :=
  if tag == "backgroundSync" then doBackgroundSync st else st

/-- Lines 113 to 127, the push listener: show a notification titled
"Portfolio Update" whose body is the payload text, or "New notification"
when the event carries no data, with fixed icon, badge and vibration and
the delivery timestamp as metadata. -/
def handlePush (st : WorkerState) (data : Option String) (now : Nat) : WorkerState :=
  { st with
    notifications := st.notifications ++
      [("Portfolio Update",
        { body := match data with | some t => t | none => "New notification",
          icon := "/favicon.ico", badge := "/favicon.ico",
          vibrate := [100, 50, 100], dateOfArrival := now })] }

/-- A JavaScript value as a message payload can carry it: undefined, null, a
string, a number, or an object whose optional "type" property is a string. -/
inductive JSData where
  | undefined
  | null
  | str (s : String)
  | num (n : Int)
  | obj (type? : Option String)
deriving Repr, DecidableEq

/-- JavaScript truthiness of a payload value: undefined, null, the empty
string and zero are falsy, every object is truthy. -/
def truthy : JSData → Bool
  | .undefined => false
  | .null => false
  | .str s => s != ""
  | .num n => n != 0
  | .obj _ => true

/-- Reading the "type" property of a payload value: throws a TypeError on
undefined and null, yields the property (or undefined) on an object, and
undefined on other primitives. -/
def getType : JSData → Except String JSData
  | .undefined => .error "TypeError: cannot read properties of undefined"
  | .null => .error "TypeError: cannot read properties of null"
  | .obj t => .ok (match t with | some s => .str s | none => .undefined)
  | .str _ => .ok .undefined
  | .num _ => .ok .undefined

/-- Lines 130 to 134, the message listener: evaluate
data && data.type === "SKIP_WAITING" left to right, so the property is only
read once the payload is truthy, and invoke skipWaiting when the comparison
holds. The result is the state, or the error a property read would throw. -/
def handleMessage (st : WorkerState) (d : JSData) : Except String WorkerState :=
  if truthy d then
    match getType d with
    | .error e => .error e
    | .ok t =>
      if t == JSData.str "SKIP_WAITING" then
        .ok { st with skipWaitingCalled := true }
      else .ok st
  else .ok st

/-- The payloads on which the guard of the message listener holds: the data
is an object present with a "type" property equal to "SKIP_WAITING". -/
def isSkipWaitingData : JSData → Bool
  | .obj t => t == some "SKIP_WAITING"
  | _ => false

/-! Concrete data for witnesses: a site origin, responses, a precached
storage, networks that are up or down, and sample requests. -/

def siteOrigin : String := "https://site.test"

def idxResp : Response := { status := 200, rtype := "basic", body := "INDEX" }

def cssResp : Response := { status := 200, rtype := "basic", body := "CSS" }

def csPre : CacheStorage :=
  [("portfolio-v2",
    [(siteOrigin ++ "/index.html", idxResp), (siteOrigin ++ "/styles.min.css", cssResp)])]

def offlineNet : NetFn := fun _ => .error "offline"

def reqCss : Request :=
  { method := "GET",
    url := { protocol := "https:", origin := siteOrigin, path := "/styles.min.css" },
    accept := "text/css", destination := "style" }

def reqAboutDoc : Request :=
  { method := "GET",
    url := { protocol := "https:", origin := siteOrigin, path := "/about.html" },
    accept := "text/html,application/xhtml+xml", destination := "document" }

def reqPost : Request :=
  { method := "POST",
    url := { protocol := "https:", origin := siteOrigin, path := "/api/contact" },
    accept := "application/json", destination := "" }

/-! Structural lemmas about the fetch listener guard and branches. -/

lemma handleFetch_not_get (o cn : String) (net : NetFn) (cs : CacheStorage)
    (req : Request) (hm : ¬ req.method = "GET") :
    handleFetch o cn net cs req = { outcome := .passthrough, caches := cs, netCalls := 0 } := by
  simp [handleFetch, hm]

lemma handleFetch_not_http (o cn : String) (net : NetFn) (cs : CacheStorage)
    (req : Request) (hp : ¬ req.url.protocol = "http:") (hs : ¬ req.url.protocol = "https:") :
    handleFetch o cn net cs req = { outcome := .passthrough, caches := cs, netCalls := 0 } := by
  by_cases hm : req.method = "GET" <;> simp [handleFetch, hm, hp, hs]

lemma handleFetch_doc (o cn : String) (net : NetFn) (cs : CacheStorage)
    (req : Request) (hm : req.method = "GET")
    (hp : req.url.protocol = "http:" ∨ req.url.protocol = "https:")
    (hh : isHtmlReq req = true) :
    handleFetch o cn net cs req = handleDocument o cn net cs req := by
  rcases hp with hp | hp <;> simp [handleFetch, hm, hp, hh]

lemma handleFetch_asset (o cn : String) (net : NetFn) (cs : CacheStorage)
    (req : Request) (hm : req.method = "GET")
    (hp : req.url.protocol = "http:" ∨ req.url.protocol = "https:")
    (hh : isHtmlReq req = false) :
    handleFetch o cn net cs req = handleAsset o cn net cs req := by
  rcases hp with hp | hp <;> simp [handleFetch, hm, hp, hh]

/-- C1: a run of the fetch handler either leaves the cache storage unchanged
or writes exactly the network response under the request key, and then the
request was same-origin, the response had status 200, and on the asset
(non-document) path the response was additionally of basic type; moreover
whenever the handler consulted the network and got a response, that very
response is the one returned to the page, so non-conforming responses are
returned but never cached. -/
theorem fetch_cache_write_guard (o cn : String) (net : NetFn) (cs : CacheStorage)
    (req : Request) :
    ((handleFetch o cn net cs req).caches = cs ∨
      ∃ resp, net req = .ok resp ∧
        (handleFetch o cn net cs req).caches = csPut cs cn req.url.href resp ∧
        req.url.origin = o ∧ resp.status = 200 ∧
        (isHtmlReq req = false → resp.rtype = "basic")) ∧
    (∀ resp, net req = .ok resp → (handleFetch o cn net cs req).netCalls = 1 →
      (handleFetch o cn net cs req).outcome = .respond (.ok (some resp))) := by
  by_cases hm : req.method = "GET"
  · by_cases hscheme : req.url.protocol = "http:" ∨ req.url.protocol = "https:"
    · by_cases hh : isHtmlReq req
      · rw [handleFetch_doc o cn net cs req hm hscheme hh]
        cases hnet : net req with
        | ok resp =>
          by_cases hcond : (req.url.origin == o && resp.status == 200) = true
          · rw [Bool.and_eq_true, beq_iff_eq, beq_iff_eq] at hcond
            constructor
            · right
              refine ⟨resp, rfl, ?_, hcond.1, hcond.2, ?_⟩
              · simp [handleDocument, hnet, hcond.1, hcond.2]
              · intro hf; rw [hf] at hh; exact absurd hh (by simp)
            · intro resp2 hresp2 _
              cases hresp2
              simp [handleDocument, hnet, hcond.1, hcond.2]
          · constructor
            · left
              simp only [handleDocument, hnet]
              rw [if_neg hcond]
            · intro resp2 hresp2 _
              cases hresp2
              simp only [handleDocument, hnet]
              rw [if_neg hcond]
        | error e =>
          constructor
          · left
            simp only [handleDocument, hnet]
            cases cachesMatch cs req.url.href <;> simp
          · intro resp2 hresp2 _
            simp at hresp2
      · rw [handleFetch_asset o cn net cs req hm hscheme (by simpa using hh)]
        cases hhit : cachesMatch cs req.url.href with
        | some r =>
          constructor
          · left; simp [handleAsset, hhit]
          · intro resp2 _ hcalls
            simp [handleAsset, hhit] at hcalls
        | none =>
          cases hnet : net req with
          | ok resp =>
            by_cases hbad : (resp.status != 200 || resp.rtype != "basic") = true
            · constructor
              · left
                simp only [handleAsset, hhit, hnet]
                rw [if_pos hbad]
              · intro resp2 hresp2 _
                cases hresp2
                simp only [handleAsset, hhit, hnet]
                rw [if_pos hbad]
            · simp only [Bool.or_eq_true, bne_iff_ne, ne_eq, not_or, not_not] at hbad
              by_cases horig : (req.url.origin == o) = true
              · rw [beq_iff_eq] at horig
                constructor
                · right
                  refine ⟨resp, rfl, ?_, horig, hbad.1, fun _ => hbad.2⟩
                  simp [handleAsset, hhit, hnet, hbad.1, hbad.2, horig]
                · intro resp2 hresp2 _
                  cases hresp2
                  simp [handleAsset, hhit, hnet, hbad.1, hbad.2, horig]
              · rw [beq_iff_eq] at horig
                constructor
                · left
                  simp [handleAsset, hhit, hnet, hbad.1, hbad.2, horig]
                · intro resp2 hresp2 _
                  cases hresp2
                  simp [handleAsset, hhit, hnet, hbad.1, hbad.2, horig]
          | error e =>
            constructor
            · left; simp [handleAsset, hhit, hnet]
            · intro resp2 hresp2 _
              simp at hresp2
    · push_neg at hscheme
      rw [handleFetch_not_http o cn net cs req hscheme.1 hscheme.2]
      exact ⟨Or.inl rfl, fun resp _ hcalls => by simp at hcalls⟩
  · rw [handleFetch_not_get o cn net cs req hm]
    exact ⟨Or.inl rfl, fun resp _ hcalls => by simp at hcalls⟩

/-- C2: an asset (non-document) GET request over http(s) whose exact match is
in the cache is answered with the cached response, with zero network calls
and the cache storage unchanged. -/
theorem asset_cache_hit_no_network (o cn : String) (net : NetFn) (cs : CacheStorage)
    (req : Request) (r : Response)
    (hm : req.method = "GET")
    (hp : req.url.protocol = "http:" ∨ req.url.protocol = "https:")
    (hh : isHtmlReq req = false)
    (hhit : cachesMatch cs req.url.href = some r) :
    handleFetch o cn net cs req =
      { outcome := .respond (.ok (some r)), caches := cs, netCalls := 0 } := by
  rw [handleFetch_asset o cn net cs req hm hp hh]
  simp [handleAsset, hhit]

/-- C2 witness: a request for /styles.min.css against a pre-populated cache,
with the network down, returns the cached bytes with no fetch and no cache
change. -/
theorem asset_cache_hit_no_network_witness :
    reqCss.method = "GET" ∧
    (reqCss.url.protocol = "http:" ∨ reqCss.url.protocol = "https:") ∧
    isHtmlReq reqCss = false ∧
    cachesMatch csPre reqCss.url.href = some cssResp ∧
    handleFetch siteOrigin "portfolio-v2" offlineNet csPre reqCss =
      { outcome := .respond (.ok (some cssResp)), caches := csPre, netCalls := 0 } :=
  ⟨rfl, Or.inr rfl, by decide, by decide,
    asset_cache_hit_no_network siteOrigin "portfolio-v2" offlineNet csPre reqCss cssResp
      rfl (Or.inr rfl) (by decide) (by decide)⟩

/-- C3: when the network fetch of a document request rejects, the handler
answers with the cached copy of the exact request and otherwise with the
cached root document; hence whenever the root document is cached, the
request still resolves to some response and never hard-fails. -/
theorem doc_offline_fallback (o cn : String) (net : NetFn) (cs : CacheStorage)
    (req : Request) (e : NetErr)
    (hm : req.method = "GET")
    (hp : req.url.protocol = "http:" ∨ req.url.protocol = "https:")
    (hh : isHtmlReq req = true)
    (hnet : net req = .error e) :
    ((handleFetch o cn net cs req).outcome =
      .respond (.ok (match cachesMatch cs req.url.href with
                     | some r => some r
                     | none => cachesMatch cs (rootKey o)))) ∧
    (∀ r, cachesMatch cs (rootKey o) = some r →
      ∃ r2, (handleFetch o cn net cs req).outcome = .respond (.ok (some r2))) := by
  rw [handleFetch_doc o cn net cs req hm hp hh]
  constructor
  · simp only [handleDocument, hnet]
    cases hcm : cachesMatch cs req.url.href <;> simp
  · intro r hr
    simp only [handleDocument, hnet]
    cases hcm : cachesMatch cs req.url.href with
    | some r0 => exact ⟨r0, by simp⟩
    | none => exact ⟨r, by simp [hr]⟩

/-- C3 witness: offline, with no cache entry of its own, a document request
for /about.html resolves to the cached /index.html content. -/
theorem doc_offline_fallback_witness :
    reqAboutDoc.method = "GET" ∧
    (reqAboutDoc.url.protocol = "http:" ∨ reqAboutDoc.url.protocol = "https:") ∧
    isHtmlReq reqAboutDoc = true ∧
    offlineNet reqAboutDoc = .error "offline" ∧
    cachesMatch csPre reqAboutDoc.url.href = none ∧
    cachesMatch csPre (rootKey siteOrigin) = some idxResp ∧
    (handleFetch siteOrigin "portfolio-v2" offlineNet csPre reqAboutDoc).outcome =
      .respond (.ok (some idxResp)) :=
  ⟨rfl, Or.inr rfl, by decide, rfl, by decide, by decide, by
    have h := doc_offline_fallback siteOrigin "portfolio-v2" offlineNet csPre reqAboutDoc
      "offline" rfl (Or.inr rfl) (by decide) rfl
    rw [h.1]
    decide⟩

/-- C4: a request whose method is not GET, or whose URL scheme is neither
http nor https, is passed through untouched: no respondWith, no cache read
or write, no network call by the handler. -/
theorem non_get_non_http_passthrough (o cn : String) (net : NetFn) (cs : CacheStorage)
    (req : Request)
    (h : ¬ req.method = "GET" ∨
         (¬ req.url.protocol = "http:" ∧ ¬ req.url.protocol = "https:")) :
    handleFetch o cn net cs req =
      { outcome := .passthrough, caches := cs, netCalls := 0 } := by
  rcases h with h | ⟨h1, h2⟩
  · exact handleFetch_not_get o cn net cs req h
  · exact handleFetch_not_http o cn net cs req h1 h2

lemma lookup_activate (cur n : String) (cs : CacheStorage) :
    (activate cur cs).lookup n = if n == cur then cs.lookup n else none := by
  induction cs with
  | nil => simp [activate]
  | cons hd t ih =>
    obtain ⟨k, c⟩ := hd
    simp only [activate] at ih ⊢
    rw [List.filter_cons]
    by_cases hk : (k == cur) = true
    · rw [if_pos hk]
      have hkc : k = cur := by rwa [beq_iff_eq] at hk
      subst hkc
      by_cases hn : (n == k) = true
      · simp [List.lookup, hn]
      · have hnf : (n == k) = false := by simpa using hn
        simp only [List.lookup, hnf, Bool.false_eq_true, if_false]
        rw [ih, hnf]
        simp
    · have hkf : (k == cur) = false := by simpa using hk
      rw [if_neg (by simp [hkf])]
      rw [ih]
      by_cases hnc : (n == cur) = true
      · have hkne : ¬ k = cur := by simpa using hk
        have hnc2 : n = cur := by rwa [beq_iff_eq] at hnc
        have hne : (n == k) = false := by
          rw [beq_eq_false_iff_ne]
          intro h
          rw [← h, hnc2] at hkne
          exact hkne rfl
        rw [if_pos hnc, if_pos hnc]
        simp [List.lookup, hne]
      · have hncf : (n == cur) = false := by simpa using hnc
        rw [if_neg (by simp [hncf]), if_neg (by simp [hncf])]

/-- The current state after installing version portfolio-v3 while the
portfolio-v2 storage was active, then activating portfolio-v3. -/
def netUp : String → Except NetErr Response := fun _ => .ok idxResp

def csRollover : CacheStorage :=
  activate "portfolio-v3" (install siteOrigin netUp "portfolio-v3" ["/", "/index.html"] csPre)

/-- C5: activation keeps exactly the namespaces named by the current version
identifier, entries intact, and deletes every other one; in particular after
installing portfolio-v3 over an active portfolio-v2 and activating
portfolio-v3, the v2 namespace is absent and the v3 entries are present. -/
theorem activate_deletes_exactly_stale (cur n : String) (cs : CacheStorage) :
    ((activate cur cs).lookup n = if n == cur then cs.lookup n else none) ∧
    (csRollover.lookup "portfolio-v2" = none ∧
     csRollover.lookup "portfolio-v3" =
       some [(siteOrigin ++ "/index.html", idxResp), (siteOrigin ++ "/", idxResp)]) :=
  ⟨lookup_activate cur n cs, by decide, by decide⟩

lemma activate_eq_single (cur : String) (cs : CacheStorage) (c : Cache)
    (hnd : (cs.map Prod.fst).Nodup) (h : cs.lookup cur = some c) :
    activate cur cs = [(cur, c)] := by
  induction cs with
  | nil => simp [List.lookup] at h
  | cons hd t ih =>
    obtain ⟨k, d⟩ := hd
    simp only [List.map_cons, List.nodup_cons] at hnd
    by_cases hk : k = cur
    · subst hk
      have hc : c = d := by simpa [List.lookup] using h.symm
      subst hc
      have ht : t.filter (fun nc => nc.1 == k) = [] := by
        rw [List.filter_eq_nil_iff]
        intro a ha
        have : a.1 ∈ t.map Prod.fst := List.mem_map_of_mem _ ha
        intro hak
        rw [beq_iff_eq] at hak
        rw [hak] at this
        exact hnd.1 this
      simp [activate, List.filter_cons, ht]
    · have hlk : t.lookup cur = some c := by
        have : (cur == k) = false := by
          rw [beq_eq_false_iff_ne]
          exact fun hc => hk hc.symm
        simpa [List.lookup, this] using h
      have := ih hnd.2 hlk
      simpa [activate, List.filter_cons, beq_iff_eq, hk] using this

/-- C6: with distinct namespace names, activating the current version twice
equals activating it once, and when the current namespace exists the result
is exactly one namespace, the current one with its entries intact; the step
is a total function, so no error is raised. -/
theorem activate_idempotent (cur : String) (cs : CacheStorage) (c : Cache)
    (hnd : (cs.map Prod.fst).Nodup) (h : cs.lookup cur = some c) :
    activate cur (activate cur cs) = activate cur cs ∧
    activate cur cs = [(cur, c)] := by
  have h1 := activate_eq_single cur cs c hnd h
  refine ⟨?_, h1⟩
  rw [h1]
  simp [activate]

/-- C6 witness: activating portfolio-v2 twice over the pre-populated storage
leaves exactly the portfolio-v2 namespace with its entries. -/
theorem activate_idempotent_witness :
    (csPre.map Prod.fst).Nodup ∧
    csPre.lookup "portfolio-v2" =
      some [(siteOrigin ++ "/index.html", idxResp), (siteOrigin ++ "/styles.min.css", cssResp)] ∧
    (activate "portfolio-v2" (activate "portfolio-v2" csPre) = activate "portfolio-v2" csPre ∧
     activate "portfolio-v2" csPre =
       [("portfolio-v2",
         [(siteOrigin ++ "/index.html", idxResp), (siteOrigin ++ "/styles.min.css", cssResp)])]) :=
  ⟨by decide, by decide,
    activate_idempotent "portfolio-v2" csPre
      [(siteOrigin ++ "/index.html", idxResp), (siteOrigin ++ "/styles.min.css", cssResp)]
      (by decide) (by decide)⟩

lemma fetchAll_fails_of_mem (net : String → Except NetErr Response) (us : List String)
    (u : String) (e : NetErr) (hu : u ∈ us) (hfail : net u = .error e) :
    ∃ e2, fetchAll net us = .error e2 := by
  induction us with
  | nil => cases hu
  | cons v vs ih =>
    cases hv : net v with
    | error e3 => exact ⟨e3, by simp [fetchAll, hv]⟩
    | ok r =>
      by_cases hok : respOk r = true
      · simp only [fetchAll, hv, hok, if_true]
        rcases List.mem_cons.mp hu with hu | hu
        · subst hu
          rw [hv] at hfail
          cases hfail
        · obtain ⟨e2, h2⟩ := ih hu
          rw [h2]
          exact ⟨e2, rfl⟩
      · have hokf : respOk r = false := by simpa using hok
        exact ⟨"addAll: a response was not ok", by simp [fetchAll, hv, hokf]⟩

lemma any_key_lookup_isSome (cs : CacheStorage) (name : String)
    (h : cs.any (fun nc => nc.1 == name) = true) :
    (cs.lookup name).isSome = true := by
  induction cs with
  | nil => simp at h
  | cons hd t ih =>
    obtain ⟨k, c⟩ := hd
    simp only [List.any_cons, Bool.or_eq_true] at h
    rcases h with h | h
    · rw [beq_iff_eq] at h
      subst h
      simp [List.lookup]
    · by_cases hn : name = k
      · subst hn
        simp [List.lookup]
      · have hb : (name == k) = false := by simpa using hn
        simpa [List.lookup, hb] using ih h

lemma lookup_append_singleton_isSome (cs : CacheStorage) (name : String) :
    ((cs ++ [(name, ([] : Cache))]).lookup name).isSome = true := by
  induction cs with
  | nil => simp [List.lookup]
  | cons hd t ih =>
    obtain ⟨k, c⟩ := hd
    by_cases hn : name = k
    · subst hn
      simp [List.lookup]
    · have hb : (name == k) = false := by simpa using hn
      simp only [List.cons_append, List.lookup, hb]
      exact ih

lemma lookup_isSome_cachesOpen (cs : CacheStorage) (name : String) :
    ((cachesOpen cs name).lookup name).isSome = true := by
  unfold cachesOpen
  by_cases h : cs.any (fun nc => nc.1 == name) = true
  · rw [if_pos h]
    exact any_key_lookup_isSome cs name h
  · rw [if_neg h]
    exact lookup_append_singleton_isSome cs name

/-- C7: when fetching some manifest asset fails, the whole addAll rejects,
so nothing is stored, but install swallows the failure: the storage it
leaves is exactly the one with the namespace opened, and that (incomplete)
namespace is present. -/
theorem install_swallows_failure (o : String) (net : String → Except NetErr Response)
    (name : String) (urls : List String) (cs : CacheStorage) (u : String) (e : NetErr)
    (hu : u ∈ urls) (hfail : net (o ++ u) = .error e) :
    (∃ e2, fetchAll net (urls.map (fun p => o ++ p)) = .error e2) ∧
    install o net name urls cs = cachesOpen cs name ∧
    ((install o net name urls cs).lookup name).isSome = true := by
  have hm : (o ++ u) ∈ urls.map (fun p => o ++ p) := List.mem_map_of_mem _ hu
  obtain ⟨e2, h2⟩ := fetchAll_fails_of_mem net _ _ e hm hfail
  have hinst : install o net name urls cs = cachesOpen cs name := by
    simp only [install, h2]
  exact ⟨⟨e2, h2⟩, hinst, by rw [hinst]; exact lookup_isSome_cachesOpen cs name⟩

/-- A network that is up except for the stylesheet asset. -/
def flakyNet : String → Except NetErr Response :=
  fun u => if u == siteOrigin ++ "/styles.min.css" then .error "down" else .ok idxResp

/-- C7 witness: installing a fresh version while the stylesheet fetch fails
leaves the opened, empty namespace and completes. -/
theorem install_swallows_failure_witness :
    "/styles.min.css" ∈ ["/", "/index.html", "/styles.min.css"] ∧
    flakyNet (siteOrigin ++ "/styles.min.css") = .error "down" ∧
    ((∃ e2, fetchAll flakyNet
        (["/", "/index.html", "/styles.min.css"].map (fun p => siteOrigin ++ p)) = .error e2) ∧
     install siteOrigin flakyNet "portfolio-v9" ["/", "/index.html", "/styles.min.css"] [] =
       cachesOpen [] "portfolio-v9" ∧
     ((install siteOrigin flakyNet "portfolio-v9"
        ["/", "/index.html", "/styles.min.css"] []).lookup "portfolio-v9").isSome = true) :=
  ⟨by decide, by decide,
    install_swallows_failure siteOrigin flakyNet "portfolio-v9"
      ["/", "/index.html", "/styles.min.css"] [] "/styles.min.css" "down"
      (by decide) (by decide)⟩

/-- C4 witness: a POST request is passed through with cache and network
untouched. -/
theorem non_get_non_http_passthrough_witness :
    (¬ reqPost.method = "GET" ∨
      (¬ reqPost.url.protocol = "http:" ∧ ¬ reqPost.url.protocol = "https:")) ∧
    handleFetch siteOrigin "portfolio-v2" offlineNet csPre reqPost =
      { outcome := .passthrough, caches := csPre, netCalls := 0 } :=
  ⟨Or.inl (by decide),
    non_get_non_http_passthrough siteOrigin "portfolio-v2" offlineNet csPre reqPost
      (Or.inl (by decide))⟩

/-- C8 counterexample: offline with an empty cache storage, the document
underlying fetch error "offline" of the document request never reaches the page: the
handler resolves with undefined (no response) instead of rejecting with
that error, because the catch swallows the rejection and returns the
(absent) cache fallback. -/
theorem fetch_error_not_propagated_counterexample :
    (handleFetch siteOrigin "portfolio-v2" offlineNet [] reqAboutDoc).outcome =
      Outcome.respond (.ok none) ∧
    ¬ (handleFetch siteOrigin "portfolio-v2" offlineNet [] reqAboutDoc).outcome =
      Outcome.respond (.error "offline") :=
  ⟨by decide, by decide⟩

/-- C8 amended: when the network fetch of a handled GET request rejects and
no cache fallback exists (no entry for the request and no cached root
document), the handler resolves with no response at all (undefined): the
fetch error itself is swallowed, not propagated. -/
theorem fetch_error_swallowed_to_none (o cn : String) (net : NetFn) (cs : CacheStorage)
    (req : Request) (e : NetErr)
    (hm : req.method = "GET")
    (hp : req.url.protocol = "http:" ∨ req.url.protocol = "https:")
    (hnet : net req = .error e)
    (hnoreq : cachesMatch cs req.url.href = none)
    (hnoroot : cachesMatch cs (rootKey o) = none) :
    (handleFetch o cn net cs req).outcome = .respond (.ok none) := by
  by_cases hh : isHtmlReq req
  · rw [handleFetch_doc o cn net cs req hm hp hh]
    simp [handleDocument, hnet, hnoreq, hnoroot]
  · rw [handleFetch_asset o cn net cs req hm hp (by simpa using hh)]
    simp [handleAsset, hnet, hnoreq, hnoroot]

/-- C8 witness for the amended claim: offline with an empty cache, the
document request resolves with no response. -/
theorem fetch_error_swallowed_to_none_witness :
    reqAboutDoc.method = "GET" ∧
    (reqAboutDoc.url.protocol = "http:" ∨ reqAboutDoc.url.protocol = "https:") ∧
    offlineNet reqAboutDoc = .error "offline" ∧
    cachesMatch [] reqAboutDoc.url.href = none ∧
    cachesMatch [] (rootKey siteOrigin) = none ∧
    (handleFetch siteOrigin "portfolio-v2" offlineNet [] reqAboutDoc).outcome =
      .respond (.ok none) :=
  ⟨rfl, Or.inr rfl, rfl, rfl, rfl,
    fetch_error_swallowed_to_none siteOrigin "portfolio-v2" offlineNet [] reqAboutDoc
      "offline" rfl (Or.inr rfl) rfl rfl rfl⟩

lemma handleMessage_eq (st : WorkerState) (d : JSData) :
    handleMessage st d =
      .ok { st with skipWaitingCalled := st.skipWaitingCalled || isSkipWaitingData d } := by
  cases d with
  | undefined => simp [handleMessage, truthy, isSkipWaitingData]
  | null => simp [handleMessage, truthy, isSkipWaitingData]
  | str s =>
    by_cases hs : s = ""
    · subst hs
      simp [handleMessage, truthy, isSkipWaitingData]
    · simp [handleMessage, truthy, hs, getType, isSkipWaitingData]
  | num n =>
    by_cases hn : n = 0
    · subst hn
      simp [handleMessage, truthy, isSkipWaitingData]
    · simp [handleMessage, truthy, hn, getType, isSkipWaitingData]
  | obj t =>
    cases t with
    | none => simp [handleMessage, truthy, getType, isSkipWaitingData]
    | some s =>
      by_cases hs : s = "SKIP_WAITING"
      · subst hs
        simp [handleMessage, truthy, getType, isSkipWaitingData]
      · have hsf : (s == "SKIP_WAITING") = false := by simpa using hs
        simp [handleMessage, truthy, getType, isSkipWaitingData, hsf]
        intro h
        exact absurd h hs

/-- C9: the sync, push and message handlers never read or write the cache
storage: for every such event the caches component of the worker state
after handling equals the one before. -/
theorem aux_handlers_cache_frame (st : WorkerState) (tag : String)
    (data : Option String) (now : Nat) (d : JSData) :
    (handleSync st tag).caches = st.caches ∧
    (handlePush st data now).caches = st.caches ∧
    (∀ st2, handleMessage st d = .ok st2 → st2.caches = st.caches) := by
  refine ⟨?_, rfl, ?_⟩
  · unfold handleSync doBackgroundSync
    split <;> rfl
  · intro st2 h
    rw [handleMessage_eq] at h
    cases h
    rfl

/-- C10: the message handler is total over arbitrary payloads, null and
undefined and type-less data included: it always succeeds, raising no
error, and skipWaiting ends invoked exactly when it already was or the data
is an object present whose type property equals "SKIP_WAITING". -/
theorem message_total_skip_waiting (st : WorkerState) (d : JSData) :
    handleMessage st d =
      .ok { st with skipWaitingCalled := st.skipWaitingCalled || isSkipWaitingData d } :=
  handleMessage_eq st d

end SW
